import Mathlib

/-!
# Verification of the criu-coordinator coordinator server and hook client

This file embeds the behaviour of the `criu-coordinator` Rust sources as pure
Lean functions and proves (or refutes) the properties claimed about them.

Conventions of the embedding:
* The server's `HashMap<String, ClientStatus>` participant registry and the
  `HashMap<String, Vec<String>>` bulk dependency map are modelled as
  association lists with unique keys (`insertAL` replaces an existing
  binding, exactly like `HashMap::insert`).
* Blocking TCP reads are modelled by passing the data a read would return as
  an explicit argument; nondeterministic short reads are modelled by a
  "chunk schedule" argument quantified over in the theorems.
* Process exits, panics and log output are modelled as explicit outcome
  values.
-/

namespace CriuCoord

/-! ## Constants (src/constants.rs) -/

def ACTION_PRE_DUMP : String := "pre-dump"

def ACTION_POST_DUMP : String := "post-dump"

def ACTION_PRE_RESTORE : String := "pre-restore"

def ACTION_POST_RESTORE : String := "post-restore"

def ACTION_NETWORK_LOCK : String := "network-lock"

def ACTION_NETWORK_UNLOCK : String := "network-unlock"

def ACTION_PRE_STREAM : String := "pre-stream"

def ACTION_POST_STREAM : String := "post-stream"

def ACTION_ADD_DEPENDENCIES : String := "add-dependencies"

def IMG_STREAMER_CAPTURE_SOCKET_NAME : String := "streamer-capture.sock"

def MESSAGE_ACK : String := "ACK"

def MESSAGE_SYN : String := "SYN"

def MESSAGE_IMG_ACK : String := "IMG_ACK"

def MESSAGE_TIMEOUT : String := "timeout"

def MESSAGE_NOT_CONNECTED : String := "not connected"

def MESSAGE_CHECKPOINT_EXISTS : String := "checkpoint is already created"

def MESSAGE_ALREADY_CONNECTED : String := "client already connected"

/-! ## Participant session state (src/server/client_status.rs)

`server.rs` constructs the status with `ClientStatus::new()`; the fields are
the session flags of `ClientStatus`.  The `operation` tag of
`client_status.rs` is not consulted by any code path a claim refers to and
is omitted from the embedding. -/

structure ClientStatus where
  connected : Bool
  ready : Bool
  local_checkpoint : Bool
  network_locked : Bool
  network_unlocked : Bool
deriving DecidableEq, Repr

/-- Embeds `ClientStatus::new()`: a fresh session is connected, with every other
flag cleared. -/
def ClientStatus.new : ClientStatus :=
  ⟨true, false, false, false, false⟩

/-! ## Association-list model of the two server hash maps -/

/-- The participant registry `clients: HashMap<String, ClientStatus>`. -/
abbrev Registry := List (String × ClientStatus)

/-- The bulk dependency map `container_dependencies`. -/
abbrev DepMap := List (String × List String)

/-- Embeds `HashMap::insert`: replace the binding for `k` if present, otherwise
append a new one. -/
def insertAL {α : Type} : List (String × α) → String → α → List (String × α)
  | [], k, v => [(k, v)]
  | (k', v') :: t, k, v =>
      if k' = k then (k, v) :: t else (k', v') :: insertAL t k v

/-- Embeds `HashMap::remove`: drop every binding whose key is `k` (keys are unique,
so at most one binding is dropped). -/
def eraseAL {α : Type} (l : List (String × α)) (k : String) : List (String × α) :=
  l.filter (fun p => p.1 ≠ k)

/-- Embeds `HashMap::contains_key`. -/
def containsKey (reg : Registry) (id : String) : Bool :=
  (reg.lookup id).isSome

/-! ## Server registry operations (src/server.rs) -/

/-- Embeds `Server::get_response_message` (server.rs:549-559): insert a fresh
session and answer `ACK` when the id is new; otherwise answer
`client already connected` and leave the registry alone. -/
def get_response_message (clients : Registry) (client_id : String) :
    String × Registry :=
  if clients.isEmpty ∨ ¬ containsKey clients client_id then
    (MESSAGE_ACK, insertAL clients client_id ClientStatus.new)
  else
    (MESSAGE_ALREADY_CONNECTED, clients)

/-- Embeds `Server::close_client_connection` (server.rs:575-594), registry part:
the entry for the session id is removed exactly when the action is
`post-stream`, `post-restore` or `post-dump`.  (The function also shuts
down the TCP stream, which does not touch the registry.) -/
def close_client_connection (clients : Registry) (id action : String) :
    Registry :=
  if action = ACTION_POST_STREAM ∨ action = ACTION_POST_RESTORE ∨
      action = ACTION_POST_DUMP then
    eraseAL clients id
  else
    clients

/-! ## Client messages and the header-dispatch of `Server::handle_client` -/

/-- Embeds `ClientMessage` (server.rs:53-58). -/
structure ClientMessage where
  id : String
  action : String
  dependencies : List String
  dependency_map : DepMap
deriving DecidableEq, Repr

/-- The JSON value found under the `"dependencies"` key of a request header:
either a string (normal clients) or an object mapping ids to lists of ids
(bulk clients).  A missing key reads as JSON `null`, whose rendering is the
string `"null"`, covered by the `str` constructor. -/
inductive DepsField where
  | str (s : String)
  | obj (entries : DepMap)
deriving DecidableEq, Repr

/-- JSON rendering of a list of strings, as the `json` crate prints it. -/
def jsonDumpList (vs : List String) : String :=
  "[" ++ String.intercalate "," (vs.map (fun v => "\"" ++ v ++ "\"")) ++ "]"

/-- JSON rendering of an object of string lists, as the `json` crate prints
it.  Only two facts about it matter to the embedded code: it is a `String`,
and it is never empty. -/
def jsonDumpObj (es : DepMap) : String :=
  "\x7b" ++
    String.intercalate "," (es.map (fun kv => "\"" ++ kv.1 ++ "\":" ++ jsonDumpList kv.2)) ++
    "\x7d"

/-- Embeds `JsonValue::to_string` of the dependencies field. -/
def DepsField.dump : DepsField → String
  | .str s => s
  | .obj es => jsonDumpObj es

/-- Rust `str::split(':')` on a character list: splitting on every colon,
keeping empty pieces (`"a:"` gives `["a", ""]`, `""` gives `[""]`). -/
def splitColon : List Char → List (List Char)
  | [] => [[]]
  | c :: t =>
      if c = ':' then [] :: splitColon t
      else
        match splitColon t with
        | [] => [[c]]
        | h :: r => (c :: h) :: r

/-- Rust `binding.split(':').map(str::to_string).collect()`. -/
def rust_split_colon (s : String) : List String :=
  (splitColon s.data).map (fun cs => String.mk cs)

/-- Embeds `Server::read_message` (server.rs:196-261), after the transport and JSON
parsing stages: build the `ClientMessage` from the header fields.  `none`
models the error return (`return None`) taken when the bulk client sends a
non-object dependencies field. -/
def read_message (container_dependencies : DepMap) (id action : String)
    (deps : DepsField) : Option ClientMessage :=
  if id = "kubescr" ∧ action = ACTION_ADD_DEPENDENCIES then
    match deps with
    | .obj es => some ⟨id, action, [], es⟩
    | .str _ => none
  else
    let binding := deps.dump
    let dependencies :=
      if binding ≠ "" then rust_split_colon binding
      else (container_dependencies.lookup id).getD []
    some ⟨id, action, dependencies, []⟩

/-- Embeds `Server::handle_add_kubesrc_dependencies` (server.rs:345-373), registry
part: for each entry of the request's dependency map, install the value
list with self-references filtered out (`dependency != key`). -/
def handle_add_kubesrc_dependencies (container_dependencies : DepMap)
    (dependency_map : DepMap) : DepMap :=
  dependency_map.foldl
    (fun acc kv => insertAL acc kv.1 (kv.2.filter (fun d => d ≠ kv.1)))
    container_dependencies

/-- Whole server state guarded by the two mutexes. -/
structure SrvState where
  clients : Registry
  container_dependencies : DepMap
deriving DecidableEq, Repr

/-- Where `Server::handle_client` (server.rs:111-194) goes after reading a
message, up to the first blocking barrier: the bulk-dependency path, the
post-dump path, the post-restore path, the rejection path (non-`ACK`
response from `get_response_message`, connection closed), or proceeding to
the dependency barriers with the session inserted. -/
inductive Dispatch where
  | bulk (response : String) (st : SrvState)
  | postDump (st : SrvState)
  | postRestore (response : String) (st : SrvState)
  | rejected (response : String) (st : SrvState)
  | proceed (st : SrvState)
deriving DecidableEq, Repr

/-- The non-blocking dispatch prefix of `Server::handle_client`
(server.rs:131-155).  The barrier phases reached through `proceed` and
`postDump`, and the streaming phase, never touch `container_dependencies`
(its only writer is `handle_add_kubesrc_dependencies`). -/
def handle_client_dispatch (st : SrvState) (msg : ClientMessage) : Dispatch :=
  if msg.id = "kubescr" ∧ msg.action = ACTION_ADD_DEPENDENCIES then
    .bulk MESSAGE_ACK
      ⟨close_client_connection st.clients msg.id msg.action,
       handle_add_kubesrc_dependencies st.container_dependencies msg.dependency_map⟩
  else if msg.action = ACTION_POST_DUMP then
    .postDump st
  else if msg.action = ACTION_POST_RESTORE then
    .postRestore MESSAGE_ACK
      ⟨close_client_connection st.clients msg.id msg.action,
       st.container_dependencies⟩
  else
    if (get_response_message st.clients msg.id).1 ≠ MESSAGE_ACK then
      .rejected (get_response_message st.clients msg.id).1
        ⟨close_client_connection (get_response_message st.clients msg.id).2 msg.id msg.action,
         st.container_dependencies⟩
    else
      .proceed ⟨(get_response_message st.clients msg.id).2, st.container_dependencies⟩

/-- The bulk dependency map after the server has read one header and
dispatched it (server.rs:115-139), as observed through the non-blocking
dispatch prefix.  The paths beyond `proceed` and `postDump` (barriers,
streaming, closing) never write `container_dependencies`: its only writer
in server.rs is `handle_add_kubesrc_dependencies`. -/
def deps_map_after (st : SrvState) (id action : String) (deps : DepsField) :
    DepMap :=
  match read_message st.container_dependencies id action deps with
  | none => st.container_dependencies
  | some msg =>
      match handle_client_dispatch st msg with
      | .bulk _ st' => st'.container_dependencies
      | .postDump st' => st'.container_dependencies
      | .postRestore _ st' => st'.container_dependencies
      | .rejected _ st' => st'.container_dependencies
      | .proceed st' => st'.container_dependencies

/-! ## The post-dump local-checkpoint barrier (src/server.rs:376-453) -/

/-- The `dependency_completed` check of `Server::handle_post_dump`
(server.rs:412-421): a dependency with no registry entry is assumed to have
already completed and been removed. -/
def dependency_completed (clients : Registry) (dep : String) : Bool :=
  match clients.lookup dep with
  | some dep_status => dep_status.local_checkpoint
  | none => true

/-- The per-dependency poll loop of `Server::handle_post_dump`
(server.rs:409-442).  `env i` is the registry contents the i-th poll
observes (the registry is mutated concurrently, so each poll may see a
different state).  Returns `(success, sleeps)`: whether the loop broke with
the dependency completed (`false` means the `timeout` branch was taken) and
how many one-second sleeps were performed. -/
def wait_local_checkpoint (env : Nat → Registry) (dep : String) :
    Nat → Nat → Bool × Nat
  | poll, 0 => if dependency_completed (env poll) dep then (true, 0) else (false, 0)
  | poll, retries + 1 =>
      if dependency_completed (env poll) dep then (true, 0)
      else
        let r := wait_local_checkpoint env dep (poll + 1) retries
        (r.1, r.2 + 1)

/-! ## The pre-stream receiving loop (src/server.rs:456-525) -/

/-- One message of the pre-stream sub-protocol as the receiving loop reads
it: the terminating `SYN`, an image descriptor together with the raw bytes
the peer then supplies and the sizes the successive `read` calls return
(`sched`, modelling TCP's nondeterministic chunking), or a JSON message
lacking `img_name`/`img_size`. -/
inductive InMsg where
  | syn
  | desc (img_name : String) (img_size : Nat) (sched : List Nat) (data : List Nat)
  | badDesc
deriving DecidableEq, Repr

/-- Observable output of the receiving loop: a file written under the
images directory, or an `IMG_ACK` sent back on the connection. -/
inductive OutEvent where
  | write (path : String) (bytes : List Nat)
  | imgAck
deriving DecidableEq, Repr

/-- The inner `while bytes_read < img_size` loop of
`Server::handle_pre_stream` (server.rs:503-518): each `read` asks for
`min 1024 (img_size - bytes_read)` bytes and returns
`min (sched head) (asked) (stream remaining)` bytes; a zero-byte read
breaks the loop.  Returns the bytes written to the output file. -/
def recvImageBytes : List Nat → List Nat → Nat → List Nat
  | _, _, 0 => []
  | [], _, _ + 1 => []
  | c :: cs, stream, n + 1 =>
      let asked := min 1024 (n + 1)
      let got := min c (min asked stream.length)
      if got = 0 then []
      else stream.take got ++ recvImageBytes cs (stream.drop got) (n + 1 - got)

/-- The outer receive loop of `Server::handle_pre_stream`
(server.rs:460-521): read a message; stop on `SYN` or on a descriptor
lacking a key; otherwise create `<images_directory>/<img_name>`, run the
inner byte loop, send one `IMG_ACK`, and repeat. -/
def handle_pre_stream (images_directory : String) : List InMsg → List OutEvent
  | [] => []
  | .syn :: _ => []
  | .badDesc :: _ => []
  | .desc img_name img_size sched data :: rest =>
      .write (images_directory ++ "/" ++ img_name) (recvImageBytes sched data img_size) ::
        .imgAck :: handle_pre_stream images_directory rest

/-! ## Client-side dependency lookup (src/client.rs) -/

/-- Rust `str::starts_with`: byte-prefix test, which on valid UTF-8 equals
the character-list-prefix test. -/
def starts_with (s key : String) : Bool :=
  key.data.isPrefixOf s.data

/-- Embeds `find_dependencies_in_global_config` (client.rs:202-214): the first
entry of the global dependency map whose key the discovered id starts with
supplies the dependencies, joined with `:`; `none` models the `Err` result
when no key matches. -/
def find_dependencies_in_global_config (deps_map : DepMap) (id : String) :
    Option String :=
  (deps_map.find? (fun kv => starts_with id kv.1)).map
    (fun kv => String.intercalate ":" kv.2)

/-! ## Hook-mode streaming decision (src/main.rs:184-226) -/

/-- Modelled from the spec: `main.rs:194` matches the hook action against a
constant `ACTION_PRE_STREAMER` whose definition is not under `src/`
(`src/constants.rs` does not define it); spec §4.6 names the action that
requests streaming `pre-stream`. -/
def ACTION_PRE_STREAMER : String := "pre-stream"

/-- Result of `fs::symlink_metadata` on
`<images-dir>/streamer-capture.sock`: the file is absent, is a UNIX
socket, or exists with some other file type. -/
inductive FileStat where
  | missing
  | socketFile
  | otherFile
deriving DecidableEq, Repr

/-- What hook-mode `main` does next after computing `enable_streaming`:
run `run_client` (with or without streaming), exit with status 0 without
running the client, or panic (nonzero exit). -/
inductive HookDecision where
  | runsClient (streaming : Bool)
  | exitsZero
  | panics
deriving DecidableEq, Repr

/-- The `enable_streaming` match of hook-mode `main` (main.rs:192-213):
`pre-stream` streams; `pre-dump` with the capture socket present exits 0
("ignore CRIU's pre-dump action hook"), panics when the file is not a UNIX
socket, and runs without streaming when the file is absent; `post-dump`
and `pre-restore` run without streaming; every other action exits 0. -/
def enable_streaming_decision (action : String) (capture_socket : FileStat) :
    HookDecision :=
  if action = ACTION_PRE_STREAMER then .runsClient true
  else if action = ACTION_PRE_DUMP then
    match capture_socket with
    | .socketFile => .exitsZero
    | .otherFile => .panics
    | .missing => .runsClient false
  else if action = ACTION_POST_DUMP then .runsClient false
  else if action = ACTION_PRE_RESTORE then .runsClient false
  else .exitsZero

/-! ## Hook client exit code (src/client.rs:263-312 with src/main.rs:217-226) -/

/-- The final process exit code of the hook: `run_client` exits 1 from
inside when the server's verdict differs from `ACK`; every other path
(including a failed `TcpStream::connect`, a failed `write_all` of the
header, and a failed read of the verdict, all merely logged) falls through
to `exit(0)` in `main`. -/
def run_client_exit_code (connect_ok send_ok : Bool)
    (read_result : Option String) : Nat :=
  if connect_ok = false then 0
  else if send_ok = false then 0
  else
    match read_result with
    | some response => if response ≠ MESSAGE_ACK then 1 else 0
    | none => 0

/-! ## Length-prefixed protobuf reads (src/pipeline/protobuf.rs) -/

def KB : Nat := 1024

/-- Outcome of `read_bytes_next` (protobuf.rs:33-44) on a byte stream:
`ok none` when zero bytes were available, `ok (some buf)` when exactly
`len` bytes were read, and `truncated` for the `exit(-1)` branch taken on
a short non-empty read. -/
inductive PbRead where
  | ok (v : Option (List Nat)) (rest : List Nat)
  | truncated
deriving DecidableEq, Repr

def read_bytes_next (src : List Nat) (len : Nat) : PbRead :=
  let buf := src.take len
  if buf.length = 0 then .ok none (src.drop len)
  else if buf.length = len then .ok (some buf) (src.drop len)
  else .truncated

/-- Outcome of `pb_read_next` (protobuf.rs:46-57): a decoded message with
its total byte count, end of stream, the `exit(-1)` on truncation, the
size assertion firing, a protobuf decode error, or the `unwrap` panic on a
zero-length payload read. -/
inductive PbNext (α : Type) where
  | ok (v : Option (α × Nat))
  | truncated
  | assertFailed
  | decodeFailed
  | panicked
deriving DecidableEq, Repr

/-- The 4-byte little-endian length prefix (`get_u32_le`). -/
def le32 (b : List Nat) : Nat :=
  match b with
  | [b0, b1, b2, b3] => b0 + b1 * 256 + b2 * 65536 + b3 * 16777216
  | _ => 0

/-- Embeds `pb_read_next` (protobuf.rs:46-57), with the protobuf decoding of the
payload abstracted as `decode`.  The assertion
`assert!(size < 10*KB, ...)` is checked before any payload byte is read. -/
def pb_read_next {α : Type} (decode : List Nat → Option α) (src : List Nat) :
    PbNext α :=
  match read_bytes_next src 4 with
  | .truncated => .truncated
  | .ok none _ => .ok none
  | .ok (some size_buf) rest =>
      let size := le32 size_buf
      if size < 10 * KB then
        match read_bytes_next rest size with
        | .truncated => .truncated
        | .ok none _ => .panicked
        | .ok (some payload) _ =>
            match decode payload with
            | some v => .ok (some (v, 4 + size_buf.length + payload.length))
            | none => .decodeFailed
      else .assertFailed

/-! ## Bulk dependency map invariant (src/server.rs:345-373) -/

/-- No key of the bulk dependency map lists itself as a dependency. -/
def NoSelfDep (m : DepMap) : Prop :=
  ∀ k vs, List.lookup k m = some vs → k ∉ vs

/-! ## Helper lemmas for the association-list operations -/

theorem lookup_cons_eq {α : Type} (t : List (String × α)) (k : String) (v : α) :
    List.lookup k ((k, v) :: t) = some v := by
  simp [List.lookup]

theorem lookup_cons_ne {α : Type} (t : List (String × α)) (k k' : String) (v : α)
    (h : k' ≠ k) : List.lookup k' ((k, v) :: t) = List.lookup k' t := by
  have hb : (k' == k) = false := beq_eq_false_iff_ne.mpr h
  simp [List.lookup, hb]

theorem lookup_eraseAL_self {α : Type} (l : List (String × α)) (k : String) :
    List.lookup k (eraseAL l k) = none := by
  induction l with
  | nil => rfl
  | cons hd tl ih =>
    obtain ⟨a, b⟩ := hd
    by_cases h : a = k
    · simpa [eraseAL, List.filter_cons, h] using ih
    · have hne : k ≠ a := Ne.symm h
      have hb : (k == a) = false := beq_eq_false_iff_ne.mpr hne
      simp only [eraseAL, List.filter_cons] at ih ⊢
      simpa [h, List.lookup, hb] using ih

theorem lookup_eraseAL_ne {α : Type} (l : List (String × α)) (k k' : String)
    (h : k' ≠ k) : List.lookup k' (eraseAL l k) = List.lookup k' l := by
  induction l with
  | nil => rfl
  | cons hd tl ih =>
    obtain ⟨a, b⟩ := hd
    by_cases hk : a = k
    · subst hk
      have hne : k' ≠ a := h
      simp only [eraseAL, List.filter_cons] at ih ⊢
      simpa [lookup_cons_ne tl a k' b hne] using ih
    · simp only [eraseAL, List.filter_cons] at ih ⊢
      by_cases hk' : k' = a
      · subst hk'
        have hb : (k' == k') = true := beq_self_eq_true k'
        simp [hk, List.lookup, hb]
      · have hb : (k' == a) = false := beq_eq_false_iff_ne.mpr hk'
        simpa [hk, List.lookup, hb] using ih

theorem lookup_insertAL_self {α : Type} (l : List (String × α)) (k : String) (v : α) :
    List.lookup k (insertAL l k v) = some v := by
  induction l with
  | nil => simp [insertAL, lookup_cons_eq]
  | cons hd tl ih =>
    obtain ⟨a, b⟩ := hd
    by_cases h : a = k
    · simp [insertAL, h, lookup_cons_eq]
    · have hne : k ≠ a := Ne.symm h
      simpa [insertAL, h, lookup_cons_ne _ a k b hne] using ih

theorem lookup_insertAL_ne {α : Type} (l : List (String × α)) (k k' : String) (v : α)
    (h : k' ≠ k) : List.lookup k' (insertAL l k v) = List.lookup k' l := by
  induction l with
  | nil => simp [insertAL, lookup_cons_ne _ k k' v h]
  | cons hd tl ih =>
    obtain ⟨a, b⟩ := hd
    by_cases hk : a = k
    · subst hk
      simp [insertAL, lookup_cons_ne _ a k' v h, lookup_cons_ne _ a k' b h]
    · by_cases hk' : k' = a
      · subst hk'
        simp [insertAL, hk, lookup_cons_eq]
      · simpa [insertAL, hk, lookup_cons_ne _ a k' b hk'] using ih

/-! ## Claim C2 — terminal actions and registry removal -/

/-- C2 (amended): the participant's registry entry is removed when and only
when the session's action is one of the three actions `post-dump`,
`post-restore`, `post-stream` handled by `close_client_connection`; after
any other action — including `post-resume` — the entry is retained. -/
theorem close_client_connection_removes_iff (clients : Registry) (id action : String) :
    (List.lookup id (close_client_connection clients id action) = none ↔
      (action = ACTION_POST_STREAM ∨ action = ACTION_POST_RESTORE ∨
        action = ACTION_POST_DUMP) ∨ List.lookup id clients = none) ∧
    (¬ (action = ACTION_POST_STREAM ∨ action = ACTION_POST_RESTORE ∨
        action = ACTION_POST_DUMP) →
      close_client_connection clients id action = clients) := by
  constructor
  · by_cases h : action = ACTION_POST_STREAM ∨ action = ACTION_POST_RESTORE ∨
        action = ACTION_POST_DUMP
    · simp [close_client_connection, h, lookup_eraseAL_self]
    · simp [close_client_connection, h]
  · intro h
    simp [close_client_connection, h]

/-- Witness for `close_client_connection_removes_iff` at a concrete
non-terminal action: a `network-lock` session retains its entry. -/
theorem close_client_connection_removes_iff_witness :
    close_client_connection [("A", ClientStatus.new)] "A" ACTION_NETWORK_LOCK =
      [("A", ClientStatus.new)] :=
  (close_client_connection_removes_iff [("A", ClientStatus.new)] "A"
      ACTION_NETWORK_LOCK).2 (by decide)

/-- Counterexample to C2 as stated: after a `post-resume` session closes,
the entry is still in the registry, although the claim lists `post-resume`
among the four terminal actions that must remove it. -/
theorem close_client_connection_post_resume_counterexample :
    List.lookup "A"
        (close_client_connection [("A", ClientStatus.new)] "A" "post-resume") =
      some ClientStatus.new := by
  decide

/-! ## Claim C1 — duplicate session ids -/

/-- C1 (amended): a header whose id already has a registry entry, with an
action other than `post-dump`, `post-restore` and the bulk
`add-dependencies` case, is answered `client already connected` and the
connection is closed; the existing entry is left unchanged — except when
the duplicate header's action is `post-stream`, in which case
`close_client_connection` removes the original entry. -/
theorem duplicate_id_rejected (st : SrvState) (msg : ClientMessage)
    (hpresent : containsKey st.clients msg.id = true)
    (hbulk : ¬ (msg.id = "kubescr" ∧ msg.action = ACTION_ADD_DEPENDENCIES))
    (hpd : msg.action ≠ ACTION_POST_DUMP)
    (hpr : msg.action ≠ ACTION_POST_RESTORE) :
    handle_client_dispatch st msg =
      .rejected MESSAGE_ALREADY_CONNECTED
        ⟨if msg.action = ACTION_POST_STREAM then eraseAL st.clients msg.id
          else st.clients,
         st.container_dependencies⟩ := by
  have hne : st.clients.isEmpty = false := by
    cases hc : st.clients with
    | nil => rw [hc] at hpresent; simp [containsKey, List.lookup] at hpresent
    | cons a t => rfl
  have hresp : get_response_message st.clients msg.id =
      (MESSAGE_ALREADY_CONNECTED, st.clients) := by
    unfold get_response_message
    rw [if_neg]
    intro h
    rcases h with h1 | h2
    · rw [hne] at h1
      exact absurd h1 (by simp)
    · exact h2 hpresent
  unfold handle_client_dispatch
  rw [if_neg hbulk, if_neg hpd, if_neg hpr, hresp]
  have hmsg : ((MESSAGE_ALREADY_CONNECTED, st.clients).1 ≠ MESSAGE_ACK) := by
    show MESSAGE_ALREADY_CONNECTED ≠ MESSAGE_ACK
    decide
  rw [if_pos hmsg]
  by_cases hps : msg.action = ACTION_POST_STREAM
  · simp [close_client_connection, hps]
  · simp [close_client_connection, hps, hpd, hpr]

/-- Witness for `duplicate_id_rejected`: a duplicate `network-lock` header
for a registered id is rejected with the registry unchanged. -/
theorem duplicate_id_rejected_witness :
    handle_client_dispatch ⟨[("A", ClientStatus.new)], []⟩
        ⟨"A", ACTION_NETWORK_LOCK, [], []⟩ =
      .rejected MESSAGE_ALREADY_CONNECTED ⟨[("A", ClientStatus.new)], []⟩ := by
  have h := duplicate_id_rejected ⟨[("A", ClientStatus.new)], []⟩
    ⟨"A", ACTION_NETWORK_LOCK, [], []⟩ (by decide) (by decide) (by decide) (by decide)
  simpa using h

/-- Counterexample to C1 as stated: a duplicate header with action
`post-stream` (which the claim does not exclude) is answered
`client already connected`, but processing it removes the original
session's entry from the registry rather than leaving it untouched. -/
theorem duplicate_post_stream_removes_entry_counterexample :
    handle_client_dispatch ⟨[("A", ClientStatus.new)], []⟩
        ⟨"A", ACTION_POST_STREAM, [], []⟩ =
      .rejected MESSAGE_ALREADY_CONNECTED ⟨[], []⟩ ∧
    (ACTION_POST_STREAM ≠ ACTION_POST_DUMP ∧
      ACTION_POST_STREAM ≠ ACTION_POST_RESTORE ∧
      ACTION_POST_STREAM ≠ ACTION_ADD_DEPENDENCIES) ∧
    containsKey [("A", ClientStatus.new)] "A" = true ∧
    containsKey [] "A" = false := by
  refine ⟨by decide, by decide, by decide, by decide⟩

/-! ## Claim C3 — missing dependencies in the post-dump barrier -/

/-- C3: in the local-checkpoint barrier of `handle_post_dump`, a dependency
with no registry entry passes the check on the very first poll, with no
sleep and no timeout; and removing any entry from the registry never
falsifies the per-dependency barrier condition, so the barrier is monotonic
with respect to removals. -/
theorem post_dump_missing_dep_completed :
    (∀ (env : Nat → Registry) (dep : String) (poll retries : Nat),
        List.lookup dep (env poll) = none →
        wait_local_checkpoint env dep poll retries = (true, 0)) ∧
    (∀ (clients : Registry) (id dep : String),
        dependency_completed clients dep = true →
        dependency_completed (eraseAL clients id) dep = true) := by
  constructor
  · intro env dep poll retries habs
    have hc : dependency_completed (env poll) dep = true := by
      simp [dependency_completed, habs]
    cases retries with
    | zero => simp [wait_local_checkpoint, hc]
    | succ r => simp [wait_local_checkpoint, hc]
  · intro clients id dep h
    by_cases hid : dep = id
    · subst hid
      simp [dependency_completed, lookup_eraseAL_self]
    · unfold dependency_completed at h ⊢
      rw [lookup_eraseAL_ne clients id dep hid]
      exact h

/-- Witness for `post_dump_missing_dep_completed`: with an empty registry,
the barrier check for dependency `"B"` succeeds immediately with zero
sleeps, and the removal monotonicity applies to a completed entry. -/
theorem post_dump_missing_dep_completed_witness :
    wait_local_checkpoint (fun _ => []) "B" 0 5 = (true, 0) ∧
    dependency_completed
      (eraseAL [("B", (⟨true, false, true, false, false⟩ : ClientStatus))] "B") "B" = true :=
  ⟨post_dump_missing_dep_completed.1 (fun _ => []) "B" 0 5 rfl,
   post_dump_missing_dep_completed.2
     [("B", (⟨true, false, true, false, false⟩ : ClientStatus))] "B" "B" (by decide)⟩

/-! ## Claim C4 — pre-stream image reception -/

theorem recvImageBytes_take :
    ∀ (sched stream : List Nat) (size : Nat),
      size ≤ stream.length → size ≤ sched.length → (∀ c ∈ sched, 1 ≤ c) →
      recvImageBytes sched stream size = stream.take size := by
  intro sched
  induction sched with
  | nil =>
    intro stream size h1 h2 h3
    have hz : size = 0 := Nat.le_zero.mp h2
    subst hz
    rfl
  | cons c cs ih =>
    intro stream size h1 h2 h3
    cases size with
    | zero => rfl
    | succ n =>
      have hc : 1 ≤ c := h3 c (List.mem_cons_self c cs)
      have h2' : n + 1 ≤ cs.length + 1 := by simpa using h2
      have hgot1 : 1 ≤ min c (min (min 1024 (n + 1)) stream.length) := by omega
      have hgotle : min c (min (min 1024 (n + 1)) stream.length) ≤ n + 1 := by omega
      have hne : min c (min (min 1024 (n + 1)) stream.length) ≠ 0 := by omega
      have hstep : recvImageBytes (c :: cs) stream (n + 1) =
          (if min c (min (min 1024 (n + 1)) stream.length) = 0 then []
           else
             stream.take (min c (min (min 1024 (n + 1)) stream.length)) ++
               recvImageBytes cs
                 (stream.drop (min c (min (min 1024 (n + 1)) stream.length)))
                 (n + 1 - min c (min (min 1024 (n + 1)) stream.length))) := rfl
      rw [hstep, if_neg hne]
      rw [ih (stream.drop (min c (min (min 1024 (n + 1)) stream.length)))
            (n + 1 - min c (min (min 1024 (n + 1)) stream.length))
            (by rw [List.length_drop]; omega)
            (by omega)
            (fun c' hm => h3 c' (List.mem_cons_of_mem c hm))]
      conv_rhs =>
        rw [show n + 1 = min c (min (min 1024 (n + 1)) stream.length) +
              (n + 1 - min c (min (min 1024 (n + 1)) stream.length)) by omega]
      rw [List.take_add]

/-- C4: for every image descriptor the pre-stream loop reads, given that
the peer supplies at least `img_size` bytes before closing (every `read`
returns at least one byte while bytes remain), the server writes exactly
`img_size` bytes — the first `img_size` bytes of the peer's data — to
`<images-directory>/<img_name>` and sends exactly one `IMG_ACK`, before
processing the next message. -/
theorem handle_pre_stream_per_descriptor (images_directory img_name : String)
    (img_size : Nat) (sched data : List Nat) (rest : List InMsg)
    (hdata : img_size ≤ data.length) (hsched : img_size ≤ sched.length)
    (hpos : ∀ c ∈ sched, 1 ≤ c) :
    handle_pre_stream images_directory
        (.desc img_name img_size sched data :: rest) =
      .write (images_directory ++ "/" ++ img_name) (data.take img_size) ::
        .imgAck :: handle_pre_stream images_directory rest ∧
    (data.take img_size).length = img_size := by
  constructor
  · simp [handle_pre_stream,
      recvImageBytes_take sched data img_size hdata hsched hpos]
  · rw [List.length_take]
    exact Nat.min_eq_left hdata

/-- Witness for `handle_pre_stream_per_descriptor`: a 3-byte image arriving
in 2-byte reads is persisted as exactly its first 3 bytes with one
`IMG_ACK`. -/
theorem handle_pre_stream_per_descriptor_witness :
    handle_pre_stream "/tmp/server-images"
        [.desc "x.img" 3 [2, 2, 2] [7, 8, 9, 10], .syn] =
      [.write "/tmp/server-images/x.img" [7, 8, 9], .imgAck] := by
  have h := handle_pre_stream_per_descriptor "/tmp/server-images" "x.img" 3
    [2, 2, 2] [7, 8, 9, 10] [.syn] (by decide) (by decide) (by decide)
  rw [h.1]
  decide

/-! ## Claim C5 — the bulk dependency install condition -/

/-- C5 (amended): the server installs an object-valued `dependencies` field
as the bulk dependency map exactly when the header's id is `"kubescr"`
(not `"bulk-deps-client"`) and the action is `add-dependencies`; for every
other id or action the map is left untouched and the field is interpreted
as a colon-separated string (with the stored-map fallback when empty). -/
theorem bulk_install_exactly_kubescr (st : SrvState) (id action : String)
    (deps : DepsField) :
    (deps_map_after st id action deps =
      if id = "kubescr" ∧ action = ACTION_ADD_DEPENDENCIES then
        match deps with
        | .obj es => handle_add_kubesrc_dependencies st.container_dependencies es
        | .str _ => st.container_dependencies
      else st.container_dependencies) ∧
    (¬ (id = "kubescr" ∧ action = ACTION_ADD_DEPENDENCIES) →
      (read_message st.container_dependencies id action deps).map
          (fun m => m.dependencies) =
        some (if deps.dump ≠ "" then rust_split_colon deps.dump
              else (st.container_dependencies.lookup id).getD [])) := by
  have e1 : ACTION_POST_DUMP ≠ ACTION_ADD_DEPENDENCIES := by decide
  have e2 : ACTION_POST_RESTORE ≠ ACTION_ADD_DEPENDENCIES := by decide
  have e3 : ACTION_POST_RESTORE ≠ ACTION_POST_DUMP := by decide
  constructor
  · by_cases hk : id = "kubescr" ∧ action = ACTION_ADD_DEPENDENCIES
    · cases deps with
      | obj es => simp [deps_map_after, read_message, hk, handle_client_dispatch]
      | str s => simp [deps_map_after, read_message, hk]
    · by_cases hpd : action = ACTION_POST_DUMP
      · simp [deps_map_after, read_message, hk, handle_client_dispatch, hpd, e1]
      · by_cases hpr : action = ACTION_POST_RESTORE
        · simp [deps_map_after, read_message, hk, handle_client_dispatch, hpd,
            hpr, e2, e3]
        · by_cases hack : (get_response_message st.clients id).1 ≠ MESSAGE_ACK
          · simp [deps_map_after, read_message, hk, handle_client_dispatch, hpd,
              hpr, hack]
          · simp [deps_map_after, read_message, hk, handle_client_dispatch, hpd,
              hpr, hack]
  · intro hk
    simp [read_message, hk]

/-- Witness for `bulk_install_exactly_kubescr`: an ordinary pre-dump header
does not touch the bulk map and has its string field split on `:`. -/
theorem bulk_install_exactly_kubescr_witness :
    deps_map_after ⟨[], [("K", ["L"])]⟩ "A" ACTION_PRE_DUMP (.str "B:C") =
      [("K", ["L"])] ∧
    (read_message [("K", ["L"])] "A" ACTION_PRE_DUMP (.str "B:C")).map
        (fun m => m.dependencies) = some ["B", "C"] := by
  have h := bulk_install_exactly_kubescr ⟨[], [("K", ["L"])]⟩ "A"
    ACTION_PRE_DUMP (.str "B:C")
  refine ⟨?_, ?_⟩
  · rw [h.1]
    decide
  · rw [h.2 (by decide)]
    decide

/-- Counterexample to C5 as stated: the id that installs the bulk map is
`"kubescr"`, not `"bulk-deps-client"` — an object sent under
`"bulk-deps-client"` with action `add-dependencies` is not installed,
while the same object under `"kubescr"` is. -/
theorem bulk_id_counterexample :
    deps_map_after ⟨[], []⟩ "kubescr" ACTION_ADD_DEPENDENCIES
        (.obj [("A", ["B"])]) = [("A", ["B"])] ∧
    ("kubescr" : String) ≠ "bulk-deps-client" ∧
    deps_map_after ⟨[], []⟩ "bulk-deps-client" ACTION_ADD_DEPENDENCIES
        (.obj [("A", ["B"])]) = [] := by
  refine ⟨by decide, by decide, by decide⟩

/-! ## Claim C6 — dependency resolution and the prefix rule -/

/-- C6 (amended): when the request supplies a non-empty dependencies string
it is preferred and split on `:`; when it is empty, the server falls back
to the installed bulk map by exact id lookup — not by the prefix rule.
The prefix rule (a key matches iff the runtime id starts with it, first
match in iteration order winning) governs the client-side lookup
`find_dependencies_in_global_config` instead. -/
theorem dependency_resolution_rules :
    (∀ (cd : DepMap) (id action s : String),
        ¬ (id = "kubescr" ∧ action = ACTION_ADD_DEPENDENCIES) → s ≠ "" →
        (read_message cd id action (.str s)).map (fun m => m.dependencies) =
          some (rust_split_colon s)) ∧
    (∀ (cd : DepMap) (id action : String),
        ¬ (id = "kubescr" ∧ action = ACTION_ADD_DEPENDENCIES) →
        (read_message cd id action (.str "")).map (fun m => m.dependencies) =
          some ((cd.lookup id).getD [])) ∧
    (∀ (pre post : DepMap) (k id : String) (vs : List String),
        (∀ kv ∈ pre, starts_with id kv.1 = false) →
        starts_with id k = true →
        find_dependencies_in_global_config (pre ++ (k, vs) :: post) id =
          some (String.intercalate ":" vs)) := by
  refine ⟨?_, ?_, ?_⟩
  · intro cd id action s hk hs
    simp [read_message, hk, DepsField.dump, hs]
  · intro cd id action hk
    simp [read_message, hk, DepsField.dump]
  · intro pre post k id vs hpre hk
    unfold find_dependencies_in_global_config
    have hfind : ((pre ++ (k, vs) :: post).find?
        (fun kv => starts_with id kv.1)) = some (k, vs) := by
      induction pre with
      | nil => simp [List.find?_cons_of_pos, hk]
      | cons hd tl ih =>
        have hhd : starts_with id hd.1 = false := hpre hd (List.mem_cons_self hd tl)
        rw [List.cons_append, List.find?_cons_of_neg]
        · exact ih (fun kv hm => hpre kv (List.mem_cons_of_mem hd hm))
        · simp [hhd]
    rw [hfind]
    rfl

/-- Witness for `dependency_resolution_rules` at concrete inputs: supplied
deps win, the empty fallback is an exact lookup, and the first
prefix-matching key wins in the client-side lookup. -/
theorem dependency_resolution_rules_witness :
    (read_message [("A", ["Z"])] "A" ACTION_PRE_DUMP (.str "B:C")).map
        (fun m => m.dependencies) = some ["B", "C"] ∧
    (read_message [("A", ["Z"])] "A" ACTION_PRE_DUMP (.str "")).map
        (fun m => m.dependencies) = some ["Z"] ∧
    find_dependencies_in_global_config [("x", ["q"]), ("ab", ["r", "s"])] "abc" =
      some "r:s" := by
  refine ⟨?_, ?_, ?_⟩
  · rw [dependency_resolution_rules.1 [("A", ["Z"])] "A" ACTION_PRE_DUMP "B:C"
      (by decide) (by decide)]
    decide
  · rw [dependency_resolution_rules.2.1 [("A", ["Z"])] "A" ACTION_PRE_DUMP
      (by decide)]
    decide
  · rw [show ([("x", ["q"]), ("ab", ["r", "s"])] : DepMap) =
        [("x", ["q"])] ++ ("ab", ["r", "s"]) :: [] from rfl]
    rw [dependency_resolution_rules.2.2 [("x", ["q"])] [] "ab" "abc" ["r", "s"]
      (by decide) (by decide)]
    decide

/-- Counterexample to C6 as stated: with the installed bulk map
`[("ab", ["x"])]` and runtime id `"abc"`, the id starts with the key
`"ab"`, yet the server's empty-deps fallback returns no dependencies,
because it looks the id up exactly instead of applying the prefix rule. -/
theorem server_fallback_exact_counterexample :
    (read_message [("ab", ["x"])] "abc" ACTION_PRE_DUMP (.str "")).map
        (fun m => m.dependencies) = some [] ∧
    starts_with "abc" "ab" = true ∧
    some ([] : List String) ≠ some ["x"] := by
  refine ⟨by decide, by decide, by decide⟩

/-! ## Claim C7 — when the hook streams -/

/-- C7 (amended): the hook performs image streaming exactly when the action
is `pre-stream`.  On `pre-dump` with the capture socket file present and
of socket type the hook exits 0 without running the client at all (it does
not stream); with the file present but of the wrong type it panics
(nonzero exit); with the file absent it runs the client without streaming. -/
theorem streaming_exactly_pre_stream :
    (∀ (action : String) (fs : FileStat),
        enable_streaming_decision action fs = .runsClient true ↔
          action = ACTION_PRE_STREAM) ∧
    enable_streaming_decision ACTION_PRE_DUMP FileStat.socketFile =
      HookDecision.exitsZero ∧
    enable_streaming_decision ACTION_PRE_DUMP FileStat.otherFile =
      HookDecision.panics ∧
    enable_streaming_decision ACTION_PRE_DUMP FileStat.missing =
      HookDecision.runsClient false := by
  refine ⟨?_, by decide, by decide, by decide⟩
  intro action fs
  constructor
  · intro h
    by_cases h1 : action = ACTION_PRE_STREAMER
    · exact h1
    · exfalso
      unfold enable_streaming_decision at h
      rw [if_neg h1] at h
      by_cases h2 : action = ACTION_PRE_DUMP
      · rw [if_pos h2] at h
        cases fs <;> simp_all
      · rw [if_neg h2] at h
        by_cases h3 : action = ACTION_POST_DUMP
        · rw [if_pos h3] at h
          simp at h
        · rw [if_neg h3] at h
          by_cases h4 : action = ACTION_PRE_RESTORE
          · rw [if_pos h4] at h
            simp at h
          · rw [if_neg h4] at h
            simp at h
  · intro h
    subst h
    cases fs <;> decide

/-- Witness for `streaming_exactly_pre_stream`: a `network-lock` hook never
streams. -/
theorem streaming_exactly_pre_stream_witness :
    enable_streaming_decision ACTION_NETWORK_LOCK FileStat.missing ≠
      HookDecision.runsClient true := by
  intro h
  have hps := (streaming_exactly_pre_stream.1 ACTION_NETWORK_LOCK
    FileStat.missing).mp h
  exact absurd hps (by decide)

/-- Counterexample to C7 as stated: on `pre-dump` with the capture socket
present and of socket type, the claim says streaming is performed, but the
hook exits 0 without streaming (main.rs:204-205: "If the stream socket
exists, ignore CRIU's pre-dump action hook"). -/
theorem pre_dump_socket_counterexample :
    enable_streaming_decision ACTION_PRE_DUMP FileStat.socketFile =
      HookDecision.exitsZero ∧
    HookDecision.exitsZero ≠ HookDecision.runsClient true := by
  exact ⟨by decide, by decide⟩

/-! ## Claim C8 — hook exit codes -/

/-- C8 (amended): the hook's process exit code is nonzero exactly when the
connection, the header send and the verdict read all succeeded and the
verdict differs from `ACK`; transport failures (failed connect, failed
send, failed read of the verdict) are only logged and the process still
exits 0. -/
theorem exit_nonzero_iff_non_ack :
    ∀ (connect_ok send_ok : Bool) (read_result : Option String),
      run_client_exit_code connect_ok send_ok read_result ≠ 0 ↔
        connect_ok = true ∧ send_ok = true ∧
          ∃ r, read_result = some r ∧ r ≠ MESSAGE_ACK := by
  intro c s rr
  cases c with
  | false => simp [run_client_exit_code]
  | true =>
    cases s with
    | false => simp [run_client_exit_code]
    | true =>
      cases rr with
      | none => simp [run_client_exit_code]
      | some response =>
        by_cases hr : response = MESSAGE_ACK
        · simp [run_client_exit_code, hr]
        · simp [run_client_exit_code, hr]

/-- Witness for `exit_nonzero_iff_non_ack`: a `timeout` verdict exits
nonzero. -/
theorem exit_nonzero_iff_non_ack_witness :
    run_client_exit_code true true (some MESSAGE_TIMEOUT) ≠ 0 :=
  (exit_nonzero_iff_non_ack true true (some MESSAGE_TIMEOUT)).mpr
    ⟨rfl, rfl, MESSAGE_TIMEOUT, rfl, by decide⟩

/-- Counterexample to C8 as stated: a failed connect to the coordinator and
a failed read of the verdict both end with exit code 0, although the claim
calls them errors that must exit nonzero. -/
theorem transport_failure_exit_zero_counterexample :
    run_client_exit_code false true none = 0 ∧
    run_client_exit_code true true none = 0 := by
  exact ⟨rfl, rfl⟩

/-! ## Claim C9 — the 10 KiB protobuf length assertion -/

/-- C9: when at least the 4-byte length prefix is available, `pb_read_next`
fails on the size assertion exactly when the little-endian prefix is
10 KiB or larger; for every smaller prefix the assertion cannot fire. -/
theorem pb_read_next_assert_iff {α : Type} (decode : List Nat → Option α)
    (src : List Nat) (h4 : 4 ≤ src.length) :
    pb_read_next decode src = PbNext.assertFailed ↔
      10 * KB ≤ le32 (src.take 4) := by
  have htake : (src.take 4).length = 4 := by
    rw [List.length_take]
    exact Nat.min_eq_left h4
  have hr : read_bytes_next src 4 = .ok (some (src.take 4)) (src.drop 4) := by
    unfold read_bytes_next
    simp [htake]
  by_cases hsz : le32 (src.take 4) < 10 * KB
  · have hsz' : ¬ (10 * KB ≤ le32 (src.take 4)) := Nat.not_le.mpr hsz
    cases hb : read_bytes_next (src.drop 4) (le32 (src.take 4)) with
    | truncated => simp [pb_read_next, hr, hb, hsz, hsz']
    | ok v rest =>
      cases v with
      | none => simp [pb_read_next, hr, hb, hsz, hsz']
      | some payload =>
        cases hd : decode payload with
        | none => simp [pb_read_next, hr, hb, hd, hsz, hsz']
        | some w => simp [pb_read_next, hr, hb, hd, hsz, hsz']
  · have hsz' : 10 * KB ≤ le32 (src.take 4) := Nat.le_of_not_lt hsz
    simp [pb_read_next, hr, hsz, hsz']

/-- Witness for `pb_read_next_assert_iff`: the prefix `[0, 40, 0, 0]`
(10240 = 10 KiB) makes the assertion fire. -/
theorem pb_read_next_assert_iff_witness :
    pb_read_next (fun b => some b) [0, 40, 0, 0] = PbNext.assertFailed :=
  (pb_read_next_assert_iff (fun b => some b) [0, 40, 0, 0] (by decide)).mpr
    (by decide)

/-! ## Claim C10 — no key of the bulk map depends on itself -/

/-- C10: `handle_add_kubesrc_dependencies` filters `dependency != key`
before installing, so it preserves the invariant that no key of the bulk
dependency map lists itself; since it is the map's only writer and the map
starts empty, any sequence of bulk requests leaves the invariant holding. -/
theorem bulk_map_no_self_dependency :
    (∀ (m entries : DepMap),
        NoSelfDep m → NoSelfDep (handle_add_kubesrc_dependencies m entries)) ∧
    (∀ reqs : List DepMap,
        NoSelfDep (reqs.foldl handle_add_kubesrc_dependencies [])) := by
  have hins : ∀ (m : DepMap) (k : String) (vs : List String),
      NoSelfDep m → NoSelfDep (insertAL m k (vs.filter (fun d => d ≠ k))) := by
    intro m k vs hm k' vs' hlk
    by_cases hk : k' = k
    · subst hk
      rw [lookup_insertAL_self] at hlk
      have hvs : vs' = vs.filter (fun d => d ≠ k') := (Option.some.inj hlk).symm
      subst hvs
      intro hmem
      rcases List.mem_filter.mp hmem with ⟨_, habs⟩
      simp at habs
    · rw [lookup_insertAL_ne m k k' _ hk] at hlk
      exact hm k' vs' hlk
  have hstep : ∀ (entries m : DepMap),
      NoSelfDep m → NoSelfDep (handle_add_kubesrc_dependencies m entries) := by
    intro entries
    induction entries with
    | nil => intro m hm; exact hm
    | cons kv t ih =>
      intro m hm
      exact ih (insertAL m kv.1 (kv.2.filter (fun d => d ≠ kv.1)))
        (hins m kv.1 kv.2 hm)
  refine ⟨fun m entries => hstep entries m, ?_⟩
  have hnil : NoSelfDep [] := by
    intro k vs h
    simp [List.lookup] at h
  have hall : ∀ (reqs : List DepMap) (m : DepMap),
      NoSelfDep m → NoSelfDep (reqs.foldl handle_add_kubesrc_dependencies m) := by
    intro reqs
    induction reqs with
    | nil => intro m hm; exact hm
    | cons r t ih => intro m hm; exact ih _ (hstep r m hm)
  exact fun reqs => hall reqs [] hnil

/-- Witness for `bulk_map_no_self_dependency`: two bulk requests, one of
them self-referencing, still leave a self-reference-free map. -/
theorem bulk_map_no_self_dependency_witness :
    NoSelfDep (List.foldl handle_add_kubesrc_dependencies []
      [[("a", ["a", "b"])], [("b", ["b"])]]) :=
  bulk_map_no_self_dependency.2 [[("a", ["a", "b"])], [("b", ["b"])]]

end CriuCoord
